import Mathlib

/-!
Verification model of the rules engine in `src/app/rules_engine.py` of the
shadow-goose backend, together with the parts of `src/app/main.py` that call
it.  Python runtime values are embedded as the inductive `PyVal`; Python
dictionaries with string keys are embedded as association sequences
(`PyDict`), and operator application that can raise is embedded as
`Except String`.  Every definition is a direct transcription of the source
code it names, except where a doc comment states a modelling choice.
-/

namespace ShadowGoose

/-! ## Python values

Engine contexts, condition values, action parameters and handler
results are plain Python data: `None`, booleans, integers, strings, lists
and string-keyed dictionaries.  Lists and dictionaries are mutually
inductive with `PyVal` so that all functions over them are structurally
recursive.  Floats are not modelled; no claim depends on them.
-/

mutual

inductive PyVal where
  | none : PyVal
  | bool (b : Bool) : PyVal
  | int (n : Int) : PyVal
  | str (s : String) : PyVal
  | list (xs : PyList) : PyVal
  | dict (xs : PyDict) : PyVal
deriving Repr, DecidableEq

inductive PyList where
  | nil : PyList
  | cons (x : PyVal) (xs : PyList) : PyList
deriving Repr, DecidableEq

inductive PyDict where
  | nil : PyDict
  | cons (k : String) (v : PyVal) (rest : PyDict) : PyDict
deriving Repr, DecidableEq

end

/-- Python `bool` is a subclass of `int`: `True` acts as `1`, `False` as `0`
in comparisons against integers. -/
def pyBoolInt (b : Bool) : Int := if b then 1 else 0

mutual

/-- Python `==` on the embedded values: `None`, booleans (interchangeable
with the integers 0 and 1), integers, strings, lists elementwise.
Dictionaries are compared pairwise in entry order; Python dictionary
equality is insensitive to insertion order, but the engine never compares
dictionaries whose key order differs, and no claim depends on that case.
Values of different (non-numeric) types compare unequal without error. -/
def pyEq : PyVal → PyVal → Bool
  | .none, .none => true
  | .bool a, .bool b => a == b
  | .bool a, .int n => pyBoolInt a == n
  | .int n, .bool b => n == pyBoolInt b
  | .int m, .int n => m == n
  | .str s, .str t => s == t
  | .list xs, .list ys => pyEqList xs ys
  | .dict a, .dict b => pyEqDict a b
  | _, _ => false

def pyEqList : PyList → PyList → Bool
  | .nil, .nil => true
  | .cons x xs, .cons y ys => pyEq x y && pyEqList xs ys
  | _, _ => false

def pyEqDict : PyDict → PyDict → Bool
  | .nil, .nil => true
  | .cons k v rest, .cons k2 v2 rest2 => k == k2 && pyEq v v2 && pyEqDict rest rest2
  | _, _ => false

end

mutual

/-- Python `<` on the embedded values, `Except`-valued because comparing
incompatible types raises `TypeError`: numbers (booleans as 0/1) compare
numerically, strings lexicographically, lists lexicographically with
element comparisons that may themselves raise; `None` and dictionaries
are unorderable; any cross-type comparison raises. -/
def pyLt : PyVal → PyVal → Except String Bool
  | .bool a, .bool b => .ok (decide (pyBoolInt a < pyBoolInt b))
  | .bool a, .int n => .ok (decide (pyBoolInt a < n))
  | .int m, .bool b => .ok (decide (m < pyBoolInt b))
  | .int m, .int n => .ok (decide (m < n))
  | .str s, .str t => .ok (decide (s < t))
  | .list xs, .list ys => pyLtList xs ys
  | _, _ => .error "TypeError: unorderable types"

/-- Python list `<`: skip the longest common prefix of pairwise-equal
elements, then compare the first differing pair with `<` (which may raise);
a strict prefix is smaller. -/
def pyLtList : PyList → PyList → Except String Bool
  | .nil, .nil => .ok false
  | .nil, .cons _ _ => .ok true
  | .cons _ _, .nil => .ok false
  | .cons x xs, .cons y ys => if pyEq x y then pyLtList xs ys else pyLt x y

end

/-- Python `<=` for the value types in play: `a <= b` holds iff `a < b`
or `a == b` (these are total orders on each comparable type), raising
exactly when `<` raises. -/
def pyLe (a b : PyVal) : Except String Bool :=
  match pyLt a b with
  | .ok true => .ok true
  | .ok false => .ok (pyEq a b)
  | .error e => .error e

/-- Key membership in an embedded dictionary (Python `k in d` for a
string `k`). -/
def pyDictHasKey : PyDict → String → Bool
  | .nil, _ => false
  | .cons k _ rest, key => k == key || pyDictHasKey rest key

/-- `d.get(key, default)` on an embedded dictionary. -/
def pyDictGet : PyDict → String → PyVal → PyVal
  | .nil, _, dflt => dflt
  | .cons k v rest, key, dflt => if k == key then v else pyDictGet rest key dflt

/-- Element membership in an embedded list, by Python `==`. -/
def pyListHas : PyList → PyVal → Bool
  | .nil, _ => false
  | .cons x rest, needle => pyEq x needle || pyListHas rest needle

/-- `needle` is a leading segment of `haystack` (character lists). -/
def charsStartWith : List Char → List Char → Bool
  | _, [] => true
  | [], _ :: _ => false
  | c :: cs, d :: ds => c == d && charsStartWith cs ds

/-- `needle` occurs contiguously somewhere in `haystack` (character
lists); the empty needle always occurs. -/
def charsContain : List Char → List Char → Bool
  | [], needle => needle.isEmpty
  | c :: rest, needle => charsStartWith (c :: rest) needle || charsContain rest needle

/-- Substring occurrence: `needle` occurs contiguously in `haystack`
(Python `needle in haystack` for strings; the empty needle matches). -/
def strContains (haystack needle : String) : Bool :=
  charsContain haystack.data needle.data

/-- Python `needle in container`: substring test on strings (both sides
must be strings, else `TypeError`), elementwise `==` on lists, key lookup
on dictionaries (unhashable needles raise; hashable non-string needles are
simply absent from string-keyed dictionaries), and `TypeError` when the
container is `None`, a boolean or an integer. -/
def pyIn (needle container : PyVal) : Except String Bool :=
  match container with
  | .str s =>
    match needle with
    | .str n => .ok (strContains s n)
    | _ => .error "TypeError: in <string> requires string as left operand"
  | .list xs => .ok (pyListHas xs needle)
  | .dict d =>
    match needle with
    | .str k => .ok (pyDictHasKey d k)
    | .none => .ok false
    | .bool _ => .ok false
    | .int _ => .ok false
    | .list _ => .error "TypeError: unhashable type"
    | .dict _ => .error "TypeError: unhashable type"
  | _ => .error "TypeError: argument of type is not iterable"

mutual

/-- Python `repr` of an embedded value (`str` and `repr` agree except on
strings); string escaping inside quotes is not modelled. -/
def pyRepr : PyVal → String
  | .none => "None"
  | .bool b => if b then "True" else "False"
  | .int n => toString n
  | .str s => "\x27" ++ s ++ "\x27"
  | .list xs => "[" ++ pyReprList xs ++ "]"
  | .dict d => "\x7b" ++ pyReprDict d ++ "\x7d"

def pyReprList : PyList → String
  | .nil => ""
  | .cons x .nil => pyRepr x
  | .cons x xs => pyRepr x ++ ", " ++ pyReprList xs

def pyReprDict : PyDict → String
  | .nil => ""
  | .cons k v .nil => "\x27" ++ k ++ "\x27: " ++ pyRepr v
  | .cons k v rest => "\x27" ++ k ++ "\x27: " ++ pyRepr v ++ ", " ++ pyReprDict rest

end

/-- Python `str` of an embedded value, as used by the `REGEX` operator on
`str(context_value)`. -/
def pyStr : PyVal → String
  | .str s => s
  | v => pyRepr v

/-- Parenthesis balance check for regex patterns. -/
def regexParens : List Char → Nat → Bool
  | [], d => d == 0
  | c :: rest, d =>
    if c = '(' then regexParens rest (d + 1)
    else if c = ')' then (if d = 0 then false else regexParens rest (d - 1))
    else regexParens rest d

/-- A regex pattern accepted by Python `re.compile`, modelled by the two
malformations the engine can realistically receive: unbalanced parentheses
and a dangling trailing backslash.  Patterns failing this check raise
`re.error`. -/
def regexValid (p : String) : Bool :=
  regexParens p.data 0 && !(p.data.getLast? == some '\\')

/-- Model of Python `re.search(pattern, s)` as called by the engine: the
pattern must be a string (else `TypeError`) and well formed (else
`re.error`); matching is modelled for literal patterns as substring
occurrence.  No claim depends on metacharacter matching semantics, only on
whether the call raises. -/
def reSearch (pattern : PyVal) (s : String) : Except String Bool :=
  match pattern with
  | .str p => if regexValid p then .ok (strContains s p) else .error "re.error: invalid pattern"
  | _ => .error "TypeError: first argument must be string"

/-! ## Enumerations

`RuleType`, `ConditionOperator` and `ActionType` in `rules_engine.py` are
string-valued Python enums; the engine compares against their `.value`
strings, so they are embedded as string constants. -/

namespace RuleType

def PROJECT_APPROVAL : String := "project_approval"

def GRANT_MATCHING : String := "grant_matching"

def USER_ACCESS : String := "user_access"

def NOTIFICATION : String := "notification"

def WORKFLOW : String := "workflow"

def COMPLIANCE : String := "compliance"

end RuleType

namespace ConditionOperator

def EQUALS : String := "equals"

def NOT_EQUALS : String := "not_equals"

def GREATER_THAN : String := "greater_than"

def LESS_THAN : String := "less_than"

def GREATER_EQUAL : String := "greater_equal"

def LESS_EQUAL : String := "less_equal"

def CONTAINS : String := "contains"

def NOT_CONTAINS : String := "not_contains"

def IN : String := "in"

def NOT_IN : String := "not_in"

def REGEX : String := "regex"

def EXISTS : String := "exists"

def NOT_EXISTS : String := "not_exists"

end ConditionOperator

namespace ActionType

def SEND_NOTIFICATION : String := "send_notification"

def UPDATE_STATUS : String := "update_status"

def REQUIRE_APPROVAL : String := "require_approval"

def ASSIGN_USER : String := "assign_user"

def CREATE_TASK : String := "create_task"

def UPDATE_PROJECT : String := "update_project"

def LOG_EVENT : String := "log_event"

def TRIGGER_WORKFLOW : String := "trigger_workflow"

end ActionType

/-! ## Conditions and contexts -/

/-- A context: the flat string-keyed mapping a caller passes to
`process_rules`.  Python dictionaries have unique keys; lookup returns the
first binding. -/
abbrev Context := List (String × PyVal)

/-- Python `context[f]` / `f in context` support: first binding for `f`. -/
def ctxLookup : Context → String → Option PyVal
  | [], _ => Option.none
  | (k, v) :: rest, key => if k == key then some v else ctxLookup rest key

/-- A condition dictionary as read by `_evaluate_condition` via
`condition.get(...)`: a missing or `None` entry for `field` or `operator`
is `Option.none` (a `None` field is never a context key, and a `None`
operator matches no operator string); a missing `value` entry is the
Python value `None`.  The data model in the spec types `field` as a string. -/
structure Condition where
  field : Option String
  operator : Option String
  value : PyVal
deriving Repr, DecidableEq

/-- `field in context` for the optional field name (Python `None` is not a
key of a string-keyed dictionary). -/
def fieldInContext (field : Option String) (ctx : Context) : Bool :=
  match field with
  | some f => (ctxLookup ctx f).isSome
  | Option.none => false

/-- The dispatch on `operator` inside the `try` block of
`_evaluate_condition` (`rules_engine.py` lines 105-134), applied to
`context_value` and `condition.value`; `.error` is a raised exception.
Python `a > b`, `a >= b` on built-in types are `b < a`, `b <= a`.
An unknown operator is logged and evaluates to `False` (line 132-134). -/
def applyOperator (operator : Option String) (field : Option String) (ctx : Context)
    (contextValue value : PyVal) : Except String Bool :=
  if operator == some ConditionOperator.EQUALS then .ok (pyEq contextValue value)
  else if operator == some ConditionOperator.NOT_EQUALS then .ok (!pyEq contextValue value)
  else if operator == some ConditionOperator.GREATER_THAN then pyLt value contextValue
  else if operator == some ConditionOperator.LESS_THAN then pyLt contextValue value
  else if operator == some ConditionOperator.GREATER_EQUAL then pyLe value contextValue
  else if operator == some ConditionOperator.LESS_EQUAL then pyLe contextValue value
  else if operator == some ConditionOperator.CONTAINS then pyIn value contextValue
  else if operator == some ConditionOperator.NOT_CONTAINS then (pyIn value contextValue).map (!·)
  else if operator == some ConditionOperator.IN then pyIn contextValue value
  else if operator == some ConditionOperator.NOT_IN then (pyIn contextValue value).map (!·)
  else if operator == some ConditionOperator.REGEX then reSearch value (pyStr contextValue)
  else if operator == some ConditionOperator.EXISTS then .ok (fieldInContext field ctx)
  else if operator == some ConditionOperator.NOT_EXISTS then .ok (!fieldInContext field ctx)
  else .ok false

/-- `RulesEngine._evaluate_condition` (lines 94-137): if the field is
absent from the context, return `operator == "not_exists"` (line 100-101,
outside the `try`); otherwise apply the operator to `context[field]` and
`condition.value`, and catch any raised exception as `False`
(lines 135-137). -/
def evaluateCondition (condition : Condition) (ctx : Context) : Bool :=
  match condition.field with
  | Option.none => condition.operator == some ConditionOperator.NOT_EXISTS
  | some f =>
    match ctxLookup ctx f with
    | Option.none => condition.operator == some ConditionOperator.NOT_EXISTS
    | some contextValue =>
      match applyOperator condition.operator condition.field ctx contextValue condition.value with
      | .ok b => b
      | .error _ => false

/-- `RulesEngine.evaluate_conditions` (lines 87-92): short-circuiting AND
over the conditions in order; the empty list is `True`. -/
def evaluateConditions : List Condition → Context → Bool
  | [], _ => true
  | c :: rest, ctx => if evaluateCondition c ctx then evaluateConditions rest ctx else false

/-! ## Actions and handlers -/

/-- An action dictionary as read by `_execute_action` via `action.get`:
the `type` entry (`Option.none` when missing) and the `params` entry
(`Option.none` models a missing entry, defaulted to the empty
dictionary). -/
structure Action where
  type : Option String
  params : Option PyVal
deriving Repr, DecidableEq

/-- An action handler: Python `handler(params, context)`, which returns a
value or raises. -/
abbrev Handler := PyVal → Context → Except String PyVal

/-- The registry `self.action_handlers`: a string-keyed mapping of
callables, mutable in Python (callers may register further handlers). -/
abbrev Handlers := List (String × Handler)

/-- First handler registered under the given type string. -/
def lookupHandler : Handlers → String → Option Handler
  | [], _ => Option.none
  | (k, h) :: rest, key => if k == key then some h else lookupHandler rest key

/-- `params.get(key, default)` inside a handler body: raises
`AttributeError` when `params` is not a dictionary. -/
def paramsGet (params : PyVal) (key : String) (dflt : PyVal) : Except String PyVal :=
  match params with
  | .dict d => .ok (pyDictGet d key dflt)
  | _ => .error "AttributeError: object has no attribute get"

/-- `RulesEngine._send_notification` (lines 190-204). -/
def sendNotification : Handler := fun params _ => do
  let notificationType ← paramsGet params "type" (.str "email")
  let recipient ← paramsGet params "recipient" .none
  let message ← paramsGet params "message" (.str "")
  return .dict (.cons "notification_sent" (.bool true)
    (.cons "type" notificationType
      (.cons "recipient" recipient
        (.cons "message" message .nil))))

/-- `RulesEngine._update_status` (lines 206-219). -/
def updateStatus : Handler := fun params _ => do
  let entityType ← paramsGet params "entity_type" .none
  let entityId ← paramsGet params "entity_id" .none
  let newStatus ← paramsGet params "status" .none
  return .dict (.cons "status_updated" (.bool true)
    (.cons "entity_type" entityType
      (.cons "entity_id" entityId
        (.cons "new_status" newStatus .nil))))

/-- `RulesEngine._require_approval` (lines 221-234). -/
def requireApproval : Handler := fun params _ => do
  let approverRole ← paramsGet params "approver_role" (.str "admin")
  let entityType ← paramsGet params "entity_type" .none
  let entityId ← paramsGet params "entity_id" .none
  return .dict (.cons "approval_required" (.bool true)
    (.cons "approver_role" approverRole
      (.cons "entity_type" entityType
        (.cons "entity_id" entityId .nil))))

/-- `RulesEngine._assign_user` (lines 236-251). -/
def assignUser : Handler := fun params _ => do
  let userId ← paramsGet params "user_id" .none
  let role ← paramsGet params "role" .none
  let entityType ← paramsGet params "entity_type" .none
  let entityId ← paramsGet params "entity_id" .none
  return .dict (.cons "user_assigned" (.bool true)
    (.cons "user_id" userId
      (.cons "role" role
        (.cons "entity_type" entityType
          (.cons "entity_id" entityId .nil)))))

/-- `RulesEngine._create_task` (lines 253-268). -/
def createTask : Handler := fun params _ => do
  let title ← paramsGet params "title" .none
  let description ← paramsGet params "description" (.str "")
  let assignee ← paramsGet params "assignee" .none
  let dueDate ← paramsGet params "due_date" .none
  return .dict (.cons "task_created" (.bool true)
    (.cons "title" title
      (.cons "description" description
        (.cons "assignee" assignee
          (.cons "due_date" dueDate .nil)))))

/-- `RulesEngine._update_project` (lines 270-281). -/
def updateProject : Handler := fun params _ => do
  let projectId ← paramsGet params "project_id" .none
  let updates ← paramsGet params "updates" (.dict .nil)
  return .dict (.cons "project_updated" (.bool true)
    (.cons "project_id" projectId
      (.cons "updates" updates .nil)))

/-- `RulesEngine._log_event` (lines 283-296). -/
def logEvent : Handler := fun params _ => do
  let eventType ← paramsGet params "event_type" .none
  let message ← paramsGet params "message" (.str "")
  let level ← paramsGet params "level" (.str "info")
  return .dict (.cons "event_logged" (.bool true)
    (.cons "event_type" eventType
      (.cons "message" message
        (.cons "level" level .nil))))

/-- `RulesEngine._trigger_workflow` (lines 298-309). -/
def triggerWorkflow : Handler := fun params _ => do
  let workflowName ← paramsGet params "workflow_name" .none
  let workflowParams ← paramsGet params "workflow_params" (.dict .nil)
  return .dict (.cons "workflow_triggered" (.bool true)
    (.cons "workflow_name" workflowName
      (.cons "workflow_params" workflowParams .nil)))

/-- `RulesEngine._register_default_handlers` (lines 50-61): the fixed
registry of the eight built-in handlers. -/
def defaultHandlers : Handlers :=
  [(ActionType.SEND_NOTIFICATION, sendNotification),
   (ActionType.UPDATE_STATUS, updateStatus),
   (ActionType.REQUIRE_APPROVAL, requireApproval),
   (ActionType.ASSIGN_USER, assignUser),
   (ActionType.CREATE_TASK, createTask),
   (ActionType.UPDATE_PROJECT, updateProject),
   (ActionType.LOG_EVENT, logEvent),
   (ActionType.TRIGGER_WORKFLOW, triggerWorkflow)]

/-- `RulesEngine._execute_action` (lines 159-168): look up the action type
in the handler registry and call the handler (whose exceptions propagate
to the caller); an unknown or missing type is logged as a warning and
returns `None` without raising. -/
def executeAction (handlers : Handlers) (action : Action) (ctx : Context) :
    Except String PyVal :=
  let params := action.params.getD (.dict .nil)
  match action.type with
  | some t =>
    match lookupHandler handlers t with
    | some h => h params ctx
    | Option.none => .ok .none
  | Option.none => .ok .none

/-- The outcome slot of an action-result dictionary: the `result` key on
success, the `error` key (the exception message) on failure. -/
inductive ActionOutcome where
  | result (value : PyVal) : ActionOutcome
  | failure (message : String) : ActionOutcome
deriving Repr, DecidableEq

/-- One entry of the list built by `execute_actions`: a dictionary holding
the action type under the key `action`, the flag `success`, and either a
`result` or an `error` entry. -/
structure ActionResult where
  action : Option String
  success : Bool
  outcome : ActionOutcome
deriving Repr, DecidableEq

/-- `RulesEngine.execute_actions` (lines 139-157): run each action in
order; a raised exception is caught per action and recorded as
`success: False` with the message, and the loop continues. -/
def executeActions (handlers : Handlers) : List Action → Context → List ActionResult
  | [], _ => []
  | a :: rest, ctx =>
    (match executeAction handlers a ctx with
     | .ok r => { action := a.type, success := true, outcome := .result r }
     | .error e => { action := a.type, success := false, outcome := .failure e }) ::
      executeActions handlers rest ctx

/-! ## Rules and rule processing -/

/-- A validated rule as consumed by `process_rules`: the `name` and
`rule_type` entries read via `rule.get` (`Option.none` when absent) and
the `conditions` and `actions` lists, which validation guarantees are
present lists. -/
structure Rule where
  name : Option String
  rule_type : Option String
  conditions : List Condition
  actions : List Action
deriving Repr, DecidableEq

/-- One entry of the list returned by `process_rules`: a dictionary
holding `rule_name`, `rule_type`, the constant `triggered = True`, and
the action-result list under `actions`. -/
structure RuleResult where
  rule_name : Option String
  rule_type : Option String
  triggered : Bool
  actions : List ActionResult
deriving Repr, DecidableEq

/-- The filter test at line 175: a rule is skipped when `rule_types` is
truthy and the rule type is not among its entries.  `rule_types` is falsy
when `None` or the empty list, in which case nothing is skipped; a rule
with no `rule_type` entry is never a member of a list of strings. -/
def passesFilter (ruleTypes : Option (List String)) (ruleType : Option String) : Bool :=
  match ruleTypes with
  | Option.none => true
  | some l =>
    if l.isEmpty then true
    else
      match ruleType with
      | some t => l.contains t
      | Option.none => false

/-- The loop body of `RulesEngine.process_rules` (lines 170-187) over an
explicit rule list: skip rules failing the type filter, evaluate the
conditions of the rest, and append a result record for each rule whose
conditions all pass. -/
def processRulesList (handlers : Handlers) :
    List Rule → Context → Option (List String) → List RuleResult
  | [], _, _ => []
  | r :: rest, ctx, ruleTypes =>
    if passesFilter ruleTypes r.rule_type then
      if evaluateConditions r.conditions ctx then
        { rule_name := r.name, rule_type := r.rule_type, triggered := true,
          actions := executeActions handlers r.actions ctx } ::
          processRulesList handlers rest ctx ruleTypes
      else processRulesList handlers rest ctx ruleTypes
    else processRulesList handlers rest ctx ruleTypes

/-- The state of a `RulesEngine` instance read or written by the methods
under verification: `self.rules` and `self.action_handlers`.  (The
attribute `self.context` is initialised empty and never used by any
method.) -/
structure RulesEngine where
  rules : List Rule
  action_handlers : Handlers

/-- `RulesEngine.process_rules` (lines 170-187) as a state transformer:
the method reads `self.rules` and `self.action_handlers` and assigns no
attribute, so it returns its result list together with the unchanged
instance state. -/
def RulesEngine.process_rules (e : RulesEngine) (ctx : Context)
    (ruleTypes : Option (List String)) : List RuleResult × RulesEngine :=
  (processRulesList e.action_handlers e.rules ctx ruleTypes, e)

/-! ## add_rule on raw rule dictionaries

`add_rule` and `_validate_rule` operate on the raw dictionary before it is
trusted, so they are embedded over `PyDict` rather than `Rule`. -/

/-- `isinstance(v, list)`. -/
def isPyList : PyVal → Bool
  | .list _ => true
  | _ => false

/-- `RulesEngine._validate_rule` (lines 74-85): raise on the first missing
required key, then on a non-list `conditions`, then on a non-list
`actions`. -/
def validateRule (rule : PyDict) : Except String Unit :=
  if !pyDictHasKey rule "name" then .error "Missing required field: name"
  else if !pyDictHasKey rule "rule_type" then .error "Missing required field: rule_type"
  else if !pyDictHasKey rule "conditions" then .error "Missing required field: conditions"
  else if !pyDictHasKey rule "actions" then .error "Missing required field: actions"
  else if !isPyList (pyDictGet rule "conditions" .none) then .error "Conditions must be a list"
  else if !isPyList (pyDictGet rule "actions" .none) then .error "Actions must be a list"
  else .ok ()

/-- `RulesEngine.add_rule` (lines 63-72) acting on the stored rule list:
validate, append on success and return `True`; catch the validation error,
leave the list as it was and return `False`. -/
def addRule (rules : List PyDict) (rule : PyDict) : Bool × List PyDict :=
  match validateRule rule with
  | .ok _ => (true, rules ++ [rule])
  | .error _ => (false, rules)

/-! ## The missing `get_all_rules` method

`src/app/main.py` line 209 (`detailed_health_check`) calls
`rules_engine.get_all_rules()`, and the spec documents the operation, but
class `RulesEngine` defines no such method. -/

/-- The method names defined in the body of class `RulesEngine`
(`rules_engine.py` lines 43-674), in source order. -/
def rulesEngineMethods : List String :=
  ["__init__", "_register_default_handlers", "add_rule", "_validate_rule",
   "evaluate_conditions", "_evaluate_condition", "execute_actions",
   "_execute_action", "process_rules", "_send_notification", "_update_status",
   "_require_approval", "_assign_user", "_create_task", "_update_project",
   "_log_event", "_trigger_workflow", "get_default_rules",
   "load_rules_from_file", "save_rules_to_file"]

/-- Python attribute lookup of a method on a `RulesEngine` instance: a
name not defined on the class raises `AttributeError`. -/
def callEngineMethod (name : String) : Except String Unit :=
  if rulesEngineMethods.contains name then .ok () else .error "AttributeError"

/-- Modelled from the spec and `main.py` lines 207-215: the rules-engine
branch of `detailed_health_check` calls `rules_engine.get_all_rules()`
inside `try`, reports `"healthy"` when the call succeeds and `"unhealthy"`
when it raises. -/
def rulesEngineHealthCheck : String :=
  match callEngineMethod "get_all_rules" with
  | .ok _ => "healthy"
  | .error _ => "unhealthy"

/-! ## Helper lemmas -/

/-- `process_rules` handles each rule of the list independently, so the
result list distributes over list append. -/
theorem processRulesList_append (H : Handlers) (ctx : Context) (rt : Option (List String))
    (l1 l2 : List Rule) :
    processRulesList H (l1 ++ l2) ctx rt =
      processRulesList H l1 ctx rt ++ processRulesList H l2 ctx rt := by
  induction l1 with
  | nil => simp [processRulesList]
  | cons r rest ih =>
    simp only [List.cons_append, processRulesList]
    split
    · split
      · simp [ih]
      · exact ih
    · exact ih

/-- A rule passing a non-empty type filter has a `rule_type` among the
filter entries. -/
theorem passesFilter_mem (l : List String) (rt : Option String) (hl : l ≠ [])
    (hp : passesFilter (some l) rt = true) : ∃ t, rt = some t ∧ t ∈ l := by
  match rt with
  | some t =>
    refine ⟨t, rfl, ?_⟩
    have he : l.isEmpty = false := by simpa [List.isEmpty_iff] using hl
    simpa [passesFilter, he] using hp
  | Option.none =>
    have he : l.isEmpty = false := by simpa [List.isEmpty_iff] using hl
    simp [passesFilter, he] at hp

/-! ## Claim theorems -/

/-- C1: for every condition and context, if the field of the condition is
not a key of the context, condition evaluation returns `true` iff the operator is
`not_exists` (every other operator yields `false`, no error raised); and
for operator `not_exists` with the field present, evaluation returns
`false`. -/
theorem evaluate_condition_missing_field (c : Condition) (ctx : Context) :
    (fieldInContext c.field ctx = false →
      (evaluateCondition c ctx = true ↔ c.operator = some ConditionOperator.NOT_EXISTS)) ∧
    (fieldInContext c.field ctx = true → c.operator = some ConditionOperator.NOT_EXISTS →
      evaluateCondition c ctx = false) := by
  constructor
  · intro h
    match hf : c.field with
    | Option.none =>
      simp [evaluateCondition, hf]
    | some f =>
      rw [hf] at h
      have hl : ctxLookup ctx f = Option.none := by
        cases hx : ctxLookup ctx f with
        | none => rfl
        | some v => simp [fieldInContext, hx] at h
      simp [evaluateCondition, hf, hl]
  · intro h hop
    match hf : c.field with
    | Option.none => simp [fieldInContext, hf] at h
    | some f =>
      obtain ⟨v, hv⟩ : ∃ v, ctxLookup ctx f = some v := by
        have := h
        simp only [fieldInContext, hf, Option.isSome_iff_exists] at this
        exact this
      have hfi : fieldInContext (some f) ctx = true := by
        simp [fieldInContext, hv]
      simp [evaluateCondition, hf, hv, applyOperator, hop, ConditionOperator.NOT_EXISTS,
        ConditionOperator.EQUALS, ConditionOperator.NOT_EQUALS, ConditionOperator.GREATER_THAN,
        ConditionOperator.LESS_THAN, ConditionOperator.GREATER_EQUAL, ConditionOperator.LESS_EQUAL,
        ConditionOperator.CONTAINS, ConditionOperator.NOT_CONTAINS, ConditionOperator.IN,
        ConditionOperator.NOT_IN, ConditionOperator.REGEX, ConditionOperator.EXISTS, hfi]

/-- C1 witness: a `not_exists` condition on a missing field is `true`, an
`equals` condition on a missing field is `false`, and a `not_exists`
condition on a present field is `false`. -/
theorem evaluate_condition_missing_field_witness :
    evaluateCondition ⟨some "x", some "not_exists", PyVal.none⟩ [] = true ∧
    evaluateCondition ⟨some "x", some "equals", PyVal.int 1⟩ [] = false ∧
    evaluateCondition ⟨some "x", some "not_exists", PyVal.none⟩ [("x", PyVal.int 1)] = false := by
  refine ⟨?_, ?_, ?_⟩
  · exact ((evaluate_condition_missing_field
      ⟨some "x", some "not_exists", PyVal.none⟩ []).1 (by decide)).mpr rfl
  · have h := (evaluate_condition_missing_field
      ⟨some "x", some "equals", PyVal.int 1⟩ []).1 (by decide)
    cases hb : evaluateCondition ⟨some "x", some "equals", PyVal.int 1⟩ [] with
    | true => exact absurd (h.mp hb) (by decide)
    | false => rfl
  · exact (evaluate_condition_missing_field
      ⟨some "x", some "not_exists", PyVal.none⟩ [("x", PyVal.int 1)]).2 (by decide) rfl

/-- C3: any exception raised while the operator is applied to the context
value is caught by `_evaluate_condition` and the condition evaluates to
`false`; evaluation is a total boolean function, so no exception reaches
the caller. -/
theorem condition_exception_swallowed (c : Condition) (ctx : Context) (f : String)
    (cv : PyVal) (e : String) (hf : c.field = some f) (hl : ctxLookup ctx f = some cv)
    (he : applyOperator c.operator c.field ctx cv c.value = .error e) :
    evaluateCondition c ctx = false := by
  rw [hf] at he
  simp [evaluateCondition, hf, hl, he]

/-- C3 witness: an ordered comparison of an integer context value against a
string, an invalid regex pattern, and a membership test whose right operand
is an integer all raise inside the operator dispatch, and each condition
evaluates to `false`. -/
theorem condition_exception_swallowed_witness :
    evaluateCondition ⟨some "a", some "greater_than", PyVal.str "x"⟩ [("a", PyVal.int 5)] = false ∧
    evaluateCondition ⟨some "a", some "regex", PyVal.str "("⟩ [("a", PyVal.int 5)] = false ∧
    evaluateCondition ⟨some "a", some "in", PyVal.int 7⟩ [("a", PyVal.int 5)] = false :=
  ⟨condition_exception_swallowed _ _ "a" (PyVal.int 5)
      "TypeError: unorderable types" rfl rfl rfl,
   condition_exception_swallowed _ _ "a" (PyVal.int 5)
      "re.error: invalid pattern" rfl rfl rfl,
   condition_exception_swallowed _ _ "a" (PyVal.int 5)
      "TypeError: argument of type is not iterable" rfl rfl rfl⟩

/-- C5: executing an action whose type is not a key of the fixed built-in
registry (or whose type entry is missing) raises nothing, yields the result
value `None`, and its entry in the action-result list has `success = true`. -/
theorem execute_unknown_action (a : Action) (ctx : Context) :
    (∀ t, a.type = some t → lookupHandler defaultHandlers t = Option.none →
      executeAction defaultHandlers a ctx = .ok PyVal.none ∧
      executeActions defaultHandlers [a] ctx =
        [{ action := a.type, success := true, outcome := .result PyVal.none }]) ∧
    (a.type = Option.none →
      executeAction defaultHandlers a ctx = .ok PyVal.none ∧
      executeActions defaultHandlers [a] ctx =
        [{ action := a.type, success := true, outcome := .result PyVal.none }]) := by
  constructor
  · intro t ht hl
    have he : executeAction defaultHandlers a ctx = .ok PyVal.none := by
      simp [executeAction, ht, hl]
    exact ⟨he, by simp [executeActions, he]⟩
  · intro ht
    have he : executeAction defaultHandlers a ctx = .ok PyVal.none := by
      simp [executeAction, ht]
    exact ⟨he, by simp [executeActions, he]⟩

/-- C5 witness: the action type `"dance"` is not in the registry; executing
it yields `None` and a `success = true` result entry. -/
theorem execute_unknown_action_witness :
    executeAction defaultHandlers { type := some "dance", params := Option.none } [] =
      .ok PyVal.none ∧
    executeActions defaultHandlers [{ type := some "dance", params := Option.none }] [] =
      [{ action := some "dance", success := true, outcome := .result PyVal.none }] :=
  (execute_unknown_action { type := some "dance", params := Option.none } []).1
    "dance" rfl rfl

/-- C9: `process_rules` reads the rule store and handler registry and
mutates no engine state: running it twice from the same engine state with
the same context and filter yields field-for-field identical result lists,
and the engine state after each call is the state before it. -/
theorem process_rules_stateless_idempotent (e : RulesEngine) (ctx : Context)
    (rt : Option (List String)) :
    ((e.process_rules ctx rt).2.process_rules ctx rt).1 = (e.process_rules ctx rt).1 ∧
    (e.process_rules ctx rt).2 = e ∧
    ((e.process_rules ctx rt).2.process_rules ctx rt).2 = e :=
  ⟨rfl, rfl, rfl⟩

/-- C6: the spec and the caller `detailed_health_check` (main.py line 209)
rely on a `get_all_rules` method, but class `RulesEngine` defines no such
method, so the call raises `AttributeError` and the health check reports
the rules engine unhealthy. -/
theorem get_all_rules_method_missing :
    rulesEngineMethods.contains "get_all_rules" = false ∧
    callEngineMethod "get_all_rules" = .error "AttributeError" ∧
    rulesEngineHealthCheck = "unhealthy" := by
  refine ⟨by decide, ?_, ?_⟩ <;> rfl

/-- C2: with a non-empty type filter, every result returned by
`process_rules` has a `rule_type` among the filter entries (a rule of any
other type produces no result, whatever its conditions); an empty filter
list behaves like an absent one, and with no filter every stored rule is
evaluated, contributing a result exactly when its conditions pass. -/
theorem process_rules_type_filter (H : Handlers) (rules : List Rule) (ctx : Context)
    (l : List String) :
    (l ≠ [] → ∀ res ∈ processRulesList H rules ctx (some l),
      ∃ t, res.rule_type = some t ∧ t ∈ l) ∧
    processRulesList H rules ctx (some []) = processRulesList H rules ctx Option.none ∧
    processRulesList H rules ctx Option.none =
      rules.filterMap (fun r =>
        if evaluateConditions r.conditions ctx then
          some ⟨r.name, r.rule_type, true, executeActions H r.actions ctx⟩
        else Option.none) := by
  refine ⟨?_, ?_, ?_⟩
  · intro hl res
    induction rules with
    | nil => intro hres; simp [processRulesList] at hres
    | cons r rest ih =>
      intro hres
      by_cases hp : passesFilter (some l) r.rule_type = true
      · by_cases hc : evaluateConditions r.conditions ctx = true
        · simp only [processRulesList, hp, hc, if_true] at hres
          rcases List.mem_cons.mp hres with h | h
          · obtain ⟨t, ht, hmem⟩ := passesFilter_mem l r.rule_type hl hp
            exact ⟨t, by rw [h, ht], hmem⟩
          · exact ih h
        · simp only [processRulesList, hp, hc, if_true, if_false,
            Bool.false_eq_true] at hres
          exact ih hres
      · simp only [processRulesList, Bool.not_eq_true] at hres
        rw [if_neg (by simp [hp])] at hres
        exact ih hres
  · induction rules with
    | nil => rfl
    | cons r rest ih => simp [processRulesList, passesFilter, ih]
  · induction rules with
    | nil => rfl
    | cons r rest ih =>
      by_cases hc : evaluateConditions r.conditions ctx = true
      · simp [processRulesList, passesFilter, hc, List.filterMap_cons, ih]
      · simp [processRulesList, passesFilter, hc, List.filterMap_cons, ih]

/-- C2 witness: with filter `["workflow"]`, a rule of type `"approval"`
whose (empty) conditions would pass produces no result, while the
`"workflow"` rule does; with no filter both rules are evaluated. -/
theorem process_rules_type_filter_witness :
    (["workflow"] ≠ ([] : List String) ∧
     ∀ res ∈ processRulesList defaultHandlers
        [⟨some "a", some "approval", [], []⟩, ⟨some "w", some "workflow", [], []⟩]
        [] (some ["workflow"]),
       ∃ t, res.rule_type = some t ∧ t ∈ ["workflow"]) ∧
    processRulesList defaultHandlers
        [⟨some "a", some "approval", [], []⟩, ⟨some "w", some "workflow", [], []⟩]
        [] (some ["workflow"]) =
      [⟨some "w", some "workflow", true, []⟩] ∧
    processRulesList defaultHandlers
        [⟨some "a", some "approval", [], []⟩, ⟨some "w", some "workflow", [], []⟩]
        [] Option.none =
      [⟨some "a", some "approval", true, []⟩, ⟨some "w", some "workflow", true, []⟩] :=
  ⟨⟨by decide,
    (process_rules_type_filter defaultHandlers
      [⟨some "a", some "approval", [], []⟩, ⟨some "w", some "workflow", [], []⟩]
      [] ["workflow"]).1 (by decide)⟩, rfl, rfl⟩

/-- C4: `execute_actions` returns one result per action in order; a raised
handler exception is caught and recorded as a `success = false` entry with
the message, a normal return is recorded as a `success = true` entry, and
in both cases the remaining actions are still executed and their results
still appear. -/
theorem execute_actions_failure_isolated (H : Handlers) (ctx : Context) :
    (∀ actions : List Action, (executeActions H actions ctx).length = actions.length) ∧
    (∀ (a : Action) (rest : List Action) (e : String),
      executeAction H a ctx = .error e →
      executeActions H (a :: rest) ctx =
        ⟨a.type, false, .failure e⟩ :: executeActions H rest ctx) ∧
    (∀ (a : Action) (rest : List Action) (r : PyVal),
      executeAction H a ctx = .ok r →
      executeActions H (a :: rest) ctx =
        ⟨a.type, true, .result r⟩ :: executeActions H rest ctx) := by
  refine ⟨?_, ?_, ?_⟩
  · intro actions
    induction actions with
    | nil => rfl
    | cons a rest ih =>
      simp only [executeActions, List.length_cons, ih]
  · intro a rest e he
    simp [executeActions, he]
  · intro a rest r hr
    simp [executeActions, hr]

/-- C4 witness: with a registered handler that raises, a two-action list
whose first action raises still runs the second action, yielding a
`success = false` entry followed by a `success = true` entry for the
second action. -/
theorem execute_actions_failure_isolated_witness :
    executeActions (("explode", fun _ _ => Except.error "boom") :: defaultHandlers)
      [⟨some "explode", Option.none⟩, ⟨some "log_event", Option.none⟩] [] =
      [⟨some "explode", false, .failure "boom"⟩,
       ⟨some "log_event", true, .result (PyVal.dict (.cons "event_logged" (.bool true)
         (.cons "event_type" PyVal.none
           (.cons "message" (.str "") (.cons "level" (.str "info") .nil)))))⟩] := by
  have h := (execute_actions_failure_isolated
      (("explode", fun _ _ => Except.error "boom") :: defaultHandlers) []).2.1
    ⟨some "explode", Option.none⟩ [⟨some "log_event", Option.none⟩] "boom" rfl
  rw [h]
  rfl

/-- C7: the empty condition list evaluates to `true` for every context,
so `process_rules` on any store containing a rule with empty conditions
always includes the trigger result of that rule whenever the rule passes
the type filter. -/
theorem process_empty_conditions (ctx : Context) :
    evaluateConditions [] ctx = true ∧
    ∀ (H : Handlers) (pre post : List Rule) (r : Rule) (rt : Option (List String)),
      r.conditions = [] → passesFilter rt r.rule_type = true →
      (⟨r.name, r.rule_type, true, executeActions H r.actions ctx⟩ : RuleResult) ∈
        processRulesList H (pre ++ r :: post) ctx rt := by
  refine ⟨rfl, ?_⟩
  intro H pre post r rt hc hp
  rw [processRulesList_append]
  apply List.mem_append_right
  have hce : evaluateConditions r.conditions ctx = true := by rw [hc]; rfl
  simp [processRulesList, hp, hce]

/-- C7 witness: a rule with empty conditions passes the `["workflow"]`
filter and its trigger result appears, even after a rule the filter
excludes. -/
theorem process_empty_conditions_witness :
    (⟨some "r", some "workflow", true, []⟩ : RuleResult) ∈
      processRulesList defaultHandlers
        [⟨some "p", some "x", [⟨some "f", some "exists", PyVal.none⟩], []⟩,
         ⟨some "r", some "workflow", [], []⟩]
        [] (some ["workflow"]) := by
  have h := (process_empty_conditions []).2 defaultHandlers
    [⟨some "p", some "x", [⟨some "f", some "exists", PyVal.none⟩], []⟩] []
    ⟨some "r", some "workflow", [], []⟩ (some ["workflow"]) rfl (by decide)
  simpa using h

/-- C8: trigger results appear in insertion order: whenever two rules
both pass the filter and both trigger, the result of the earlier rule
precedes the result of the later rule, with no reordering by any
priority. -/
theorem process_preserves_insertion_order (H : Handlers) (ctx : Context)
    (rt : Option (List String)) (pre mid post : List Rule) (r1 r2 : Rule)
    (h1f : passesFilter rt r1.rule_type = true)
    (h1c : evaluateConditions r1.conditions ctx = true)
    (h2f : passesFilter rt r2.rule_type = true)
    (h2c : evaluateConditions r2.conditions ctx = true) :
    processRulesList H (pre ++ r1 :: mid ++ r2 :: post) ctx rt =
      processRulesList H pre ctx rt ++
        (⟨r1.name, r1.rule_type, true, executeActions H r1.actions ctx⟩ : RuleResult) ::
          (processRulesList H mid ctx rt ++
            (⟨r2.name, r2.rule_type, true, executeActions H r2.actions ctx⟩ : RuleResult) ::
              processRulesList H post ctx rt) := by
  rw [processRulesList_append]
  simp [processRulesList, h1f, h1c, processRulesList_append, h2f, h2c]

/-- C8 witness: two always-triggering rules inserted in order `R1, R2`
yield results in order `R1, R2`. -/
theorem process_preserves_insertion_order_witness :
    processRulesList defaultHandlers
      [⟨some "R1", some "workflow", [], []⟩, ⟨some "R2", some "workflow", [], []⟩]
      [] Option.none =
      [⟨some "R1", some "workflow", true, []⟩, ⟨some "R2", some "workflow", true, []⟩] := by
  have h := process_preserves_insertion_order defaultHandlers [] Option.none
    [] [] [] ⟨some "R1", some "workflow", [], []⟩ ⟨some "R2", some "workflow", [], []⟩
    rfl rfl rfl rfl
  simpa using h

/-- C10: `add_rule` returns `true` exactly when the four required keys are
present and `conditions` and `actions` are lists; on `false` the stored
rule list is completely unchanged, and on `true` the new store is the old
store with exactly the given rule appended at the end. -/
theorem add_rule_store_update (rules : List PyDict) (rule : PyDict) :
    ((addRule rules rule).1 = true ↔
      (pyDictHasKey rule "name" = true ∧ pyDictHasKey rule "rule_type" = true ∧
       pyDictHasKey rule "conditions" = true ∧ pyDictHasKey rule "actions" = true ∧
       isPyList (pyDictGet rule "conditions" PyVal.none) = true ∧
       isPyList (pyDictGet rule "actions" PyVal.none) = true)) ∧
    ((addRule rules rule).1 = true → (addRule rules rule).2 = rules ++ [rule]) ∧
    ((addRule rules rule).1 = false → (addRule rules rule).2 = rules) := by
  unfold addRule validateRule
  by_cases h1 : pyDictHasKey rule "name" = true <;>
    by_cases h2 : pyDictHasKey rule "rule_type" = true <;>
      by_cases h3 : pyDictHasKey rule "conditions" = true <;>
        by_cases h4 : pyDictHasKey rule "actions" = true <;>
          by_cases h5 : isPyList (pyDictGet rule "conditions" PyVal.none) = true <;>
            by_cases h6 : isPyList (pyDictGet rule "actions" PyVal.none) = true <;>
              simp [h1, h2, h3, h4, h5, h6]

/-- C10 witness: a rule dictionary with all required keys and list-valued
`conditions`/`actions` is appended and reported `true`; one missing
`rule_type` leaves the store unchanged and reports `false`. -/
theorem add_rule_store_update_witness :
    (addRule []
      (.cons "name" (.str "n") (.cons "rule_type" (.str "workflow")
        (.cons "conditions" (.list .nil) (.cons "actions" (.list .nil) .nil))))).1 = true ∧
    (addRule []
      (.cons "name" (.str "n") (.cons "rule_type" (.str "workflow")
        (.cons "conditions" (.list .nil) (.cons "actions" (.list .nil) .nil))))).2 =
      [.cons "name" (.str "n") (.cons "rule_type" (.str "workflow")
        (.cons "conditions" (.list .nil) (.cons "actions" (.list .nil) .nil)))] ∧
    (addRule [.cons "name" (.str "n") .nil]
      (.cons "name" (.str "m") (.cons "conditions" (.list .nil) .nil))).1 = false ∧
    (addRule [.cons "name" (.str "n") .nil]
      (.cons "name" (.str "m") (.cons "conditions" (.list .nil) .nil))).2 =
      [.cons "name" (.str "n") .nil] := by
  refine ⟨?_, ?_, ?_, ?_⟩
  · exact (add_rule_store_update []
      (.cons "name" (.str "n") (.cons "rule_type" (.str "workflow")
        (.cons "conditions" (.list .nil) (.cons "actions" (.list .nil) .nil))))).1.mpr
      (by refine ⟨?_, ?_, ?_, ?_, ?_, ?_⟩ <;> decide)
  · exact (add_rule_store_update []
      (.cons "name" (.str "n") (.cons "rule_type" (.str "workflow")
        (.cons "conditions" (.list .nil) (.cons "actions" (.list .nil) .nil))))).2.1 (by decide)
  · cases hb : (addRule [.cons "name" (.str "n") .nil]
      (.cons "name" (.str "m") (.cons "conditions" (.list .nil) .nil))).1 with
    | false => rfl
    | true =>
      have := (add_rule_store_update [.cons "name" (.str "n") .nil]
        (.cons "name" (.str "m") (.cons "conditions" (.list .nil) .nil))).1.mp hb
      exact absurd this.2.1 (by decide)
  · exact (add_rule_store_update [.cons "name" (.str "n") .nil]
      (.cons "name" (.str "m") (.cons "conditions" (.list .nil) .nil))).2.2 (by decide)

end ShadowGoose
